import Mathlib

/-!
Verification of the result-normalization, export and refresh logic of
`src/main.py` (a dashboard that fetches GitHub trending data through an
external extraction service and renders it as tables).

The Python values flowing through the program are JSON payloads; they are
embedded as the `JSONValue` tagged union below.  `json.loads` from the
Python standard library is an external collaborator and is modelled as an
explicit `parse : String → Option JSONValue` argument (`none` standing for
`json.JSONDecodeError`); `json.dumps` is modelled by the concrete printer
`jsonDumps`.  Each definition carries a comment pointing at the lines of
`src/main.py` it embeds.
-/

set_option autoImplicit false

/-- A JSON value: the shape of every payload the program manipulates
(`RawResult` in the design document). Numbers are modelled as integers,
the only numeric fields in the domain being counts. -/
inductive JSONValue where
  | null
  | bool (b : Bool)
  | num (n : Int)
  | str (s : String)
  | arr (elems : List JSONValue)
  | obj (fields : List (String × JSONValue))

/-- Python `isinstance(v, str)`. -/
def JSONValue.isStr : JSONValue → Bool
  | .str _ => true
  | _ => false

/-- Python `isinstance(v, dict)`. -/
def JSONValue.isObj : JSONValue → Bool
  | .obj _ => true
  | _ => false

/-- Python dict lookup on a decoded JSON object: `d[k]` / `k in d`
combined, returning `none` when the key is absent.  Objects decoded from
JSON have unique keys, and the first binding is returned. -/
def lookupField (fields : List (String × JSONValue)) (k : String) : Option JSONValue :=
  match fields with
  | [] => none
  | (k', v) :: rest => if k' = k then some v else lookupField rest k

/-- Lines 178-179 and 259-260 of `src/main.py`:
`if not isinstance(raw, list): raw = [raw]`. -/
def ensureList : JSONValue → List JSONValue
  | .arr xs => xs
  | v => [v]

/-- One row of the "Trending Developers" table (lines 188-194 of
`src/main.py`): the value stored under each of the five display columns. -/
structure DevRecord where
  username : JSONValue
  full_name : JSONValue
  popular_repo : JSONValue
  repo_description : JSONValue
  company : JSONValue

/-- Lines 188-194 of `src/main.py`: the dict literal appended to
`developers_data`.  Each column is
`dev[k] if isinstance(dev, dict) and k in dev else "N/A"`: the stored
value verbatim (even `null`) when the key is present, the string `"N/A"`
otherwise — in particular a non-dict element yields a row of `"N/A"` entries. -/
def devBuildRow (dev : JSONValue) : DevRecord :=
  match dev with
  | .obj fs =>
    { username := (lookupField fs "username").getD (.str "N/A")
      full_name := (lookupField fs "full_name").getD (.str "N/A")
      popular_repo := (lookupField fs "popular_repo").getD (.str "N/A")
      repo_description := (lookupField fs "repo_description").getD (.str "N/A")
      company := (lookupField fs "company").getD (.str "N/A") }
  | _ =>
    { username := .str "N/A", full_name := .str "N/A", popular_repo := .str "N/A"
      repo_description := .str "N/A", company := .str "N/A" }

/-- Lines 181-194 of `src/main.py`, one iteration of the `for dev in
raw_developers` loop: a string element is first passed to `json.loads`
(`parse`); on decode failure the loop `continue`s (no row), otherwise the
row is built from the (possibly re-bound) element. -/
def devStep (parse : String → Option JSONValue) (dev : JSONValue) : Option DevRecord :=
  match dev with
  | .str s =>
    match parse s with
    | none => none
    | some v => some (devBuildRow v)
  | v => some (devBuildRow v)

/-- The element as it stands after the per-element JSON parsing of
lines 182-186 / 263-267 of `src/main.py`: a string element is replaced by
its decoded value, `none` when decoding fails (the loop then skips it);
any other element passes through unchanged. -/
def afterElementParse (parse : String → Option JSONValue) : JSONValue → Option JSONValue
  | .str s => parse s
  | v => some v

/-- The `for dev in raw_developers` loop of lines 181-194, accumulating
`developers_data` by appending each built row. -/
def devLoop (parse : String → Option JSONValue) :
    List JSONValue → List DevRecord → List DevRecord
  | [], acc => acc
  | d :: rest, acc =>
    match devStep parse d with
    | none => devLoop parse rest acc
    | some r => devLoop parse rest (acc ++ [r])

/-- Outcome of normalizing one payload for the developers tab: the
`st.error` messages emitted and the rows of the resulting table. -/
structure NormOutcome where
  errors : List String
  records : List DevRecord

/-- Lines 167-194 of `src/main.py`: the whole developers-tab
normalization. A string payload is passed to `json.loads`; on failure
`st.error("Invalid JSON data received")` is emitted and the element list
becomes `[]`.  A non-list payload is wrapped in a one-element list, and
the element loop builds the rows. -/
def normalizeDevelopers (parse : String → Option JSONValue) (data : JSONValue) : NormOutcome :=
  match data with
  | .str s =>
    match parse s with
    | none => { errors := ["Invalid JSON data received"], records := [] }
    | some v => { errors := [], records := devLoop parse (ensureList v) [] }
  | v => { errors := [], records := devLoop parse (ensureList v) [] }

/-- One row of the "Trending Repos" table (lines 269-274 of
`src/main.py`): the value stored under each of the four display columns. -/
structure RepoRow where
  repository : JSONValue
  description : JSONValue
  stars : JSONValue
  language : JSONValue

/-- Lines 269-274 of `src/main.py`: the dict appended to `repos_data`,
built with `repo.get(key, default)`.  Python's `dict.get` returns the
stored value whenever the key is present — even when that value is null or
not a number — and the default only when the key is absent.  Calling
`.get` on a non-dict raises `AttributeError`; that uncaught exception is
modelled by `none`. -/
def repoRowOf (repo : JSONValue) : Option RepoRow :=
  match repo with
  | .obj fs =>
    some { repository := (lookupField fs "name").getD (.str "N/A")
           description := (lookupField fs "description").getD (.str "N/A")
           stars := (lookupField fs "stars").getD (.num 0)
           language := (lookupField fs "language").getD (.str "Unknown") }
  | _ => none

/-- Lines 262-274 of `src/main.py`: the `for repo in raw_repos` loop.  A
string element is passed to `json.loads`; decode failure skips it
(`continue`); building a row from a non-dict element raises, aborting the
whole loop (`none`). -/
def repoLoop (parse : String → Option JSONValue) :
    List JSONValue → List RepoRow → Option (List RepoRow)
  | [], acc => some acc
  | r :: rest, acc =>
    match r with
    | .str s =>
      match parse s with
      | none => repoLoop parse rest acc
      | some v =>
        match repoRowOf v with
        | none => none
        | some row => repoLoop parse rest (acc ++ [row])
    | v =>
      match repoRowOf v with
      | none => none
      | some row => repoLoop parse rest (acc ++ [row])

/-- Outcome of normalizing one payload for the repositories tab: the
`st.error` messages emitted, and the rows — `none` when the loop raised an
uncaught `AttributeError`. -/
structure RepoOutcome where
  errors : List String
  rows : Option (List RepoRow)

/-- Lines 249-274 of `src/main.py`: the repositories-tab normalization,
same outer structure as the developers tab. -/
def normalizeRepos (parse : String → Option JSONValue) (data : JSONValue) : RepoOutcome :=
  match data with
  | .str s =>
    match parse s with
    | none => { errors := ["Invalid JSON data received"], rows := some [] }
    | some v => { errors := [], rows := repoLoop parse (ensureList v) [] }
  | v => { errors := [], rows := repoLoop parse (ensureList v) [] }

/-- Escaping of one character inside a JSON string literal, as
`json.dumps` performs it for `"` and backslash (the only escape classes
occurring in this domain). -/
def escStep (c : Char) (acc : List Char) : List Char :=
  if c = '"' ∨ c = '\\' then '\\' :: c :: acc else c :: acc

/-- JSON string-literal escaping applied to a whole string. -/
def jsonEscape (s : String) : String :=
  String.mk (s.data.foldr escStep [])

mutual

/-- `json.dumps` (external collaborator, used at line 220 of
`src/main.py`), restricted to the separators that matter: indentation is
cosmetic — the design document declares it not semantically significant —
so the compact one-line form is produced. -/
def jsonDumps : JSONValue → String
  | .null => "null"
  | .bool true => "true"
  | .bool false => "false"
  | .num n => toString n
  | .str s => "\"" ++ jsonEscape s ++ "\""
  | .arr xs => "[" ++ jsonDumpsElems xs ++ "]"
  | .obj fs => "\x7b" ++ jsonDumpsFields fs ++ "\x7d"

/-- Comma-separated serialization of the elements of a JSON array. -/
def jsonDumpsElems : List JSONValue → String
  | [] => ""
  | [x] => jsonDumps x
  | x :: y :: rest => jsonDumps x ++ ", " ++ jsonDumpsElems (y :: rest)

/-- Comma-separated serialization of the fields of a JSON object. -/
def jsonDumpsFields : List (String × JSONValue) → String
  | [] => ""
  | [(k, v)] => "\"" ++ jsonEscape k ++ "\": " ++ jsonDumps v
  | (k, v) :: p :: rest =>
    "\"" ++ jsonEscape k ++ "\": " ++ jsonDumps v ++ ", " ++ jsonDumpsFields (p :: rest)

end

/-- Line 220 of `src/main.py`:
`json_data = json.dumps(st.session_state.trending_data, indent=2)` — the
"Download as JSON" artifact serializes the raw cached payload itself, not
the normalized table. -/
def exportTrendingJSON (data : JSONValue) : String :=
  jsonDumps data

/-- Lines 33-64 of `src/main.py` (`fetch_trending_developers`): from the
gateway call's outcome to the function's return value paired with the
`st.error` messages it emits.  On success `response["result"]` is
returned; on any exception the failure is only logged (`logger.error`,
line 61) — no user-visible error is emitted — and `None` is returned. -/
def fetchTrendingDevelopers (gateway : Except String JSONValue) :
    Option JSONValue × List String :=
  match gateway with
  | .ok v => (some v, [])
  | .error _ => (none, [])

/-- Line 155 of `src/main.py`:
`st.session_state.trending_data = fetch_trending_developers(api_key)` —
pressing "Refresh Developers Data" stores the fetch result over the
previously cached value unconditionally. -/
def refreshTrendingData (gateway : Except String JSONValue)
    (_prevData : Option JSONValue) : Option JSONValue :=
  (fetchTrendingDevelopers gateway).1

/-- Python truthiness of the cached value, deciding line 160's
`if st.session_state.trending_data:`: when false, the tab shows the
"No data available. Please try refreshing." warning (line 228) instead of
the table. -/
def pyTruthy : Option JSONValue → Bool
  | none => false
  | some .null => false
  | some (.bool b) => b
  | some (.num n) => n != 0
  | some (.str s) => s != ""
  | some (.arr xs) => !xs.isEmpty
  | some (.obj fs) => !fs.isEmpty

/-- The all-sentinel row appended for a non-dict element of the
developers payload. -/
def naDevRecord : DevRecord :=
  { username := .str "N/A", full_name := .str "N/A", popular_repo := .str "N/A"
    repo_description := .str "N/A", company := .str "N/A" }

/-- The five schema keys looked up by the developers row builder
(lines 189-193 of `src/main.py`). -/
def devKeys : List String :=
  ["username", "full_name", "popular_repo", "repo_description", "company"]

/-- A concrete, schema-conformant developers payload: one mapping with all
five schema fields present. -/
def devSample : JSONValue :=
  .arr [.obj [("username", .str "ada"), ("full_name", .str "Ada L."),
              ("popular_repo", .str "engine"), ("repo_description", .str "first program"),
              ("company", .str "retro")]]

/-- A concrete decode function realizing the standard-library contract at
the sample payload: it maps the exported document of `devSample` back to
`devSample` and refuses everything else. -/
def sampleLoads (s : String) : Option JSONValue :=
  if s = exportTrendingJSON devSample then some devSample else none

/-- The element loop equals the input accumulator followed by the
`filterMap` of the per-element step: each iteration appends at most one
row at the end. -/
theorem devLoop_eq_append (parse : String → Option JSONValue) (xs : List JSONValue)
    (acc : List DevRecord) :
    devLoop parse xs acc = acc ++ xs.filterMap (devStep parse) := by
  induction xs generalizing acc with
  | nil => simp [devLoop]
  | cons d rest ih =>
    cases hstep : devStep parse d with
    | none => simp [devLoop, hstep, ih, List.filterMap_cons]
    | some r => simp [devLoop, hstep, ih, List.filterMap_cons]

/-- Normalizing a list payload emits no error and produces the
`filterMap` of the per-element step over the list. -/
theorem normalizeDevelopers_arr (parse : String → Option JSONValue) (xs : List JSONValue) :
    normalizeDevelopers parse (.arr xs) =
      { errors := [], records := xs.filterMap (devStep parse) } := by
  simp [normalizeDevelopers, ensureList, devLoop_eq_append]

/-- A non-dict element is built into the all-sentinel row. -/
theorem devBuildRow_not_obj (v : JSONValue) (h : v.isObj = false) :
    devBuildRow v = naDevRecord := by
  cases v <;> simp_all [devBuildRow, JSONValue.isObj, naDevRecord]

/-- A non-string element skips the per-element decode and is built
directly into a row. -/
theorem devStep_not_str (parse : String → Option JSONValue) (v : JSONValue)
    (h : v.isStr = false) :
    devStep parse v = some (devBuildRow v) := by
  cases v <;> simp_all [devStep, JSONValue.isStr]

/-- Over a list of elements that are neither strings nor mappings, the
per-element step produces exactly one all-sentinel row per element. -/
theorem filterMap_devStep_all_na (parse : String → Option JSONValue) :
    ∀ xs : List JSONValue, (∀ x ∈ xs, x.isStr = false ∧ x.isObj = false) →
      xs.filterMap (devStep parse) = xs.map fun _ => naDevRecord
  | [], _ => rfl
  | x :: rest, h => by
    have hx := h x (List.mem_cons_self x rest)
    rw [List.filterMap_cons, devStep_not_str parse x hx.1, devBuildRow_not_obj x hx.2,
      List.map_cons,
      filterMap_devStep_all_na parse rest (fun y hy => h y (List.mem_cons_of_mem x hy))]

/-- C1 counterexample: with a record set cached, a failing refresh does
not leave the cached state unchanged — the stored value becomes None —
and the fetch emits no user-visible error message (the failure is only
logged). -/
theorem c1_counterexample :
    refreshTrendingData (.error "connection failed")
        (some (.arr [.obj [("username", .str "ada")]])) ≠
      some (.arr [.obj [("username", .str "ada")]]) ∧
    (fetchTrendingDevelopers (.error "connection failed")).2 = [] :=
  ⟨(fun h => nomatch h), rfl⟩

/-- C1 amended: for every previously cached value and every failing
extraction, `fetch_trending_developers` surfaces no user-visible error
(the failure is only logged) and the refresh overwrites the cache with
None, discarding the prior record set; the tab then takes the
"No data available" warning branch instead of displaying the prior
table. -/
theorem c1_failed_refresh_clears_cache (e : String) (prev : Option JSONValue) :
    refreshTrendingData (.error e) prev = none ∧
    (fetchTrendingDevelopers (.error e)).2 = [] ∧
    pyTruthy (refreshTrendingData (.error e) prev) = false :=
  ⟨rfl, rfl, rfl⟩

/-- C2 counterexample: the number 5 is not a mapping, yet the developers
normalization does not skip it — the element contributes one
(all-sentinel) record, not zero. -/
theorem c2_counterexample :
    (normalizeDevelopers (fun _ => none) (.arr [.num 5])).records = [naDevRecord] ∧
    ([naDevRecord] : List DevRecord).length ≠ 0 :=
  ⟨rfl, fun h => nomatch h⟩

/-- Whatever an element parses to, when that result is not a mapping the
developers step still builds a row for it — the all-sentinel one. -/
theorem devStep_parsed_not_obj (parse : String → Option JSONValue) (v w : JSONValue)
    (hparse : afterElementParse parse v = some w) (hobj : w.isObj = false) :
    devStep parse v = some naDevRecord := by
  cases v with
  | str s =>
    have hp : parse s = some w := hparse
    simp [devStep, hp, devBuildRow_not_obj w hobj]
  | null => cases hparse; exact congrArg some (devBuildRow_not_obj _ hobj)
  | bool b => cases hparse; exact congrArg some (devBuildRow_not_obj _ hobj)
  | num n => cases hparse; exact congrArg some (devBuildRow_not_obj _ hobj)
  | arr xs => cases hparse; exact congrArg some (devBuildRow_not_obj _ hobj)
  | obj fs => cases hparse; exact congrArg some (devBuildRow_not_obj _ hobj)

/-- Once the repositories loop reaches an element that parses to a
non-mapping, it aborts — whatever was already accumulated and whatever
elements follow. -/
theorem repoLoop_aborts (parse : String → Option JSONValue) (v w : JSONValue)
    (hparse : afterElementParse parse v = some w) (hobj : w.isObj = false)
    (ys : List JSONValue) (acc : List RepoRow) :
    repoLoop parse (v :: ys) acc = none := by
  have hrow : repoRowOf w = none := by
    cases w <;> simp_all [repoRowOf, JSONValue.isObj]
  cases v with
  | str s =>
    have hp : parse s = some w := hparse
    simp [repoLoop, hp, hrow]
  | null => cases hparse; simp [repoLoop, hrow]
  | bool b => cases hparse; simp [repoLoop, hrow]
  | num n => cases hparse; simp [repoLoop, hrow]
  | arr xs => cases hparse; simp [repoLoop, hrow]
  | obj fs => cases hparse; simp [repoLoop, hrow]

/-- C2 amended: an element whose per-element JSON parsing result is not a
mapping — a non-string element that is no mapping, or a string decoding
to a non-mapping — is NOT skipped: the developers normalization appends
one row with every field set to "N/A" for it, at its position, whatever
elements surround it; and the repositories normalization aborts with an
uncaught AttributeError as soon as the loop reaches such an element,
whatever was accumulated before it. -/
theorem c2_non_mapping_not_skipped (parse : String → Option JSONValue) (v w : JSONValue)
    (hparse : afterElementParse parse v = some w) (hobj : w.isObj = false)
    (xs ys : List JSONValue) (acc : List RepoRow) :
    devStep parse v = some naDevRecord ∧
    (normalizeDevelopers parse (.arr (xs ++ v :: ys))).records =
      (normalizeDevelopers parse (.arr xs)).records ++
        naDevRecord :: (normalizeDevelopers parse (.arr ys)).records ∧
    repoLoop parse (v :: ys) acc = none ∧
    (normalizeRepos parse (.arr (v :: ys))).rows = none := by
  have hstep := devStep_parsed_not_obj parse v w hparse hobj
  have habort := repoLoop_aborts parse v w hparse hobj
  refine ⟨hstep, ?_, habort ys acc, ?_⟩
  · simp [normalizeDevelopers_arr, List.filterMap_append, List.filterMap_cons, hstep]
  · simp [normalizeRepos, ensureList, habort ys []]

/-- C2 witness: the string element "5" decodes to the number 5, which is
not a mapping — the developers step yields the all-sentinel record and
the repositories normalization aborts. -/
theorem c2_witness :
    afterElementParse (fun t => if t = "5" then some (JSONValue.num 5) else none)
        (.str "5") = some (JSONValue.num 5) ∧
    JSONValue.isObj (.num 5) = false ∧
    devStep (fun t => if t = "5" then some (JSONValue.num 5) else none)
        (.str "5") = some naDevRecord ∧
    (normalizeRepos (fun t => if t = "5" then some (JSONValue.num 5) else none)
        (.arr [.str "5"])).rows = none :=
  ⟨rfl, rfl,
    (c2_non_mapping_not_skipped (fun t => if t = "5" then some (JSONValue.num 5) else none)
      (.str "5") (.num 5) rfl rfl [] [] []).1,
    (c2_non_mapping_not_skipped (fun t => if t = "5" then some (JSONValue.num 5) else none)
      (.str "5") (.num 5) rfl rfl [] [] []).2.2.2⟩

/-- C3 counterexample: a mapping whose username field is present but null
yields a record whose username is null — not the "N/A" sentinel the claim
requires for null fields. -/
theorem c3_counterexample :
    (normalizeDevelopers (fun _ => none) (.arr [.obj [("username", .null)]])).records =
      [{ username := .null, full_name := .str "N/A", popular_repo := .str "N/A",
         repo_description := .str "N/A", company := .str "N/A" }] ∧
    JSONValue.null ≠ .str "N/A" :=
  ⟨rfl, fun h => nomatch h⟩

/-- C3 amended: the built record assigns the mapping's stored value
whenever the schema key is present — even when that value is null — and
the "N/A" sentinel exactly when the key is absent; keys outside the
schema are dropped (two mappings agreeing on the five schema keys build
the same record); and normalizing a one-element list whose mapping binds
all five schema keys yields the single record of exactly those values. -/
theorem c3_present_value_kept_missing_sentinel (parse : String → Option JSONValue)
    (fs fs' : List (String × JSONValue)) (u fn pr rd c : JSONValue)
    (h : ∀ k ∈ devKeys, lookupField fs k = lookupField fs' k) :
    devBuildRow (.obj fs) =
      { username := (lookupField fs "username").getD (.str "N/A"),
        full_name := (lookupField fs "full_name").getD (.str "N/A"),
        popular_repo := (lookupField fs "popular_repo").getD (.str "N/A"),
        repo_description := (lookupField fs "repo_description").getD (.str "N/A"),
        company := (lookupField fs "company").getD (.str "N/A") } ∧
    devBuildRow (.obj fs) = devBuildRow (.obj fs') ∧
    normalizeDevelopers parse (.arr [.obj
        [("username", u), ("full_name", fn), ("popular_repo", pr),
         ("repo_description", rd), ("company", c)]]) =
      { errors := [], records := [⟨u, fn, pr, rd, c⟩] } := by
  have hu := h "username" (by simp [devKeys])
  have hfn := h "full_name" (by simp [devKeys])
  have hpr := h "popular_repo" (by simp [devKeys])
  have hrd := h "repo_description" (by simp [devKeys])
  have hc := h "company" (by simp [devKeys])
  refine ⟨rfl, ?_, rfl⟩
  simp only [devBuildRow, hu, hfn, hpr, hrd, hc]

/-- C3 witness: a mapping with the extra key "age" builds the same record
as the mapping without it, and the full-schema mapping round-trips into
the record of its values. -/
theorem c3_witness :
    devBuildRow (.obj [("username", .str "ada"), ("age", .num 36)]) =
      devBuildRow (.obj [("username", .str "ada")]) :=
  (c3_present_value_kept_missing_sentinel (fun _ => none)
    [("username", .str "ada"), ("age", .num 36)] [("username", .str "ada")]
    .null .null .null .null .null
    (by intro k hk; fin_cases hk <;> rfl)).2.1

/-- C4 counterexample: the JSON export of a valid, schema-conformant
payload serializes the raw list at top level — the exported document is a
JSON array, beginning with a bracket, not a document with a single
top-level key holding the record list. -/
theorem c4_counterexample :
    exportTrendingJSON devSample =
      "[\x7b\"username\": \"ada\", \"full_name\": \"Ada L.\", \"popular_repo\": \"engine\", \"repo_description\": \"first program\", \"company\": \"retro\"\x7d]" ∧
    (exportTrendingJSON devSample).front = '[' := by
  have h : exportTrendingJSON devSample =
      "[\x7b\"username\": \"ada\", \"full_name\": \"Ada L.\", \"popular_repo\": \"engine\", \"repo_description\": \"first program\", \"company\": \"retro\"\x7d]" := by
    simp [exportTrendingJSON, devSample, jsonDumps, jsonDumpsElems, jsonDumpsFields,
      jsonEscape, escStep]
  refine ⟨h, ?_⟩
  rw [h]
  rfl

/-- C4 amended: the "Download as JSON" artifact serializes the raw cached
payload itself (for a list payload, the document's top level is that
list, with no wrapper key); parsing the exported document back — the
standard library's decode being a left inverse of its encode — and
normalizing yields exactly the record set of the original payload: same
field values, same order. -/
theorem c4_export_reimport (parse : String → Option JSONValue) (data : JSONValue)
    (h : parse (exportTrendingJSON data) = some data) :
    normalizeDevelopers parse ((parse (exportTrendingJSON data)).getD .null) =
      normalizeDevelopers parse data := by
  rw [h]
  rfl

/-- C4 witness: the export/reimport equivalence at the sample payload,
with a decode function realizing the standard-library contract there. -/
theorem c4_witness :
    sampleLoads (exportTrendingJSON devSample) = some devSample ∧
    normalizeDevelopers sampleLoads
        ((sampleLoads (exportTrendingJSON devSample)).getD .null) =
      normalizeDevelopers sampleLoads devSample :=
  ⟨by simp [sampleLoads], c4_export_reimport sampleLoads devSample (by simp [sampleLoads])⟩

/-- C5 counterexample: a mapping whose stars field holds the string
"many" builds a row whose stars value is that string, verbatim — not the
claimed coercion to zero. -/
theorem c5_counterexample :
    (normalizeRepos (fun _ => none)
        (.arr [.obj [("name", .str "x"), ("stars", .str "many")]])).rows =
      some [{ repository := .str "x", description := .str "N/A",
              stars := .str "many", language := .str "Unknown" }] ∧
    JSONValue.str "many" ≠ .num 0 :=
  ⟨rfl, (fun h => nomatch h)⟩

/-- C5 amended: `repo.get("stars", 0)` substitutes zero only when the
stars key is absent; a present value — numeric or not, null included — is
stored verbatim.  The record is never dropped, and every other field is
built by the same present-else-default rule. -/
theorem c5_stars_default_only_when_missing (fs : List (String × JSONValue)) :
    (repoRowOf (.obj fs)).map RepoRow.stars =
      some ((lookupField fs "stars").getD (.num 0)) ∧
    (repoRowOf (.obj fs)).isSome = true ∧
    repoRowOf (.obj fs) =
      some { repository := (lookupField fs "name").getD (.str "N/A"),
             description := (lookupField fs "description").getD (.str "N/A"),
             stars := (lookupField fs "stars").getD (.num 0),
             language := (lookupField fs "language").getD (.str "Unknown") } :=
  ⟨rfl, rfl, rfl⟩

/-- C6: a string payload that fails to decode as JSON fails the whole
normalization: the message "Invalid JSON data received" is surfaced to
the user via st.error and the resulting record set is empty — no partial
records, no crash. -/
theorem c6_invalid_json_fails_whole (parse : String → Option JSONValue) (s : String)
    (h : parse s = none) :
    normalizeDevelopers parse (.str s) =
      { errors := ["Invalid JSON data received"], records := [] } := by
  simp [normalizeDevelopers, h]

/-- C6 witness: the failure outcome at a concrete undecodable payload. -/
theorem c6_witness :
    (fun _ : String => (none : Option JSONValue)) "0xNOPE" = none ∧
    normalizeDevelopers (fun _ => none) (.str "0xNOPE") =
      { errors := ["Invalid JSON data received"], records := [] } :=
  ⟨rfl, c6_invalid_json_fails_whole (fun _ => none) "0xNOPE" rfl⟩

/-- C7: an element that is a string failing to decode is dropped silently
— removing it from the input changes neither the errors nor the records —
and the sequence of one well-formed mapping followed by one unparsable
string yields exactly the one record built from the mapping. -/
theorem c7_unparsable_element_dropped (parse : String → Option JSONValue) (s : String)
    (h : parse s = none) (xs ys : List JSONValue) (fs : List (String × JSONValue)) :
    normalizeDevelopers parse (.arr (xs ++ .str s :: ys)) =
      normalizeDevelopers parse (.arr (xs ++ ys)) ∧
    (normalizeDevelopers parse (.arr [.obj fs, .str s])).records =
      [devBuildRow (.obj fs)] := by
  have hstep : devStep parse (.str s) = none := by simp [devStep, h]
  have hobj : devStep parse (.obj fs) = some (devBuildRow (.obj fs)) := rfl
  constructor
  · simp [normalizeDevelopers_arr, List.filterMap_append, List.filterMap_cons, hstep]
  · simp [normalizeDevelopers_arr, List.filterMap_cons, hstep, hobj]

/-- C7 witness: the two-element scenario at concrete inputs. -/
theorem c7_witness :
    (fun _ : String => (none : Option JSONValue)) "oops" = none ∧
    (normalizeDevelopers (fun _ => none)
        (.arr [.obj [("username", .str "ada")], .str "oops"])).records =
      [devBuildRow (.obj [("username", .str "ada")])] :=
  ⟨rfl, (c7_unparsable_element_dropped (fun _ => none) "oops" rfl [] []
    [("username", .str "ada")]).2⟩

/-- C8: a string payload that decodes to a list normalizes exactly as the
already-decoded list does — wrapping a valid payload in a JSON string is
transparent to the normalizer. -/
theorem c8_string_wrapping_transparent (parse : String → Option JSONValue) (s : String)
    (l : List JSONValue) (h : parse s = some (.arr l)) :
    normalizeDevelopers parse (.str s) = normalizeDevelopers parse (.arr l) := by
  simp [normalizeDevelopers, h]

/-- C8 witness: transparency at the concrete encoded empty list. -/
theorem c8_witness :
    (fun t : String => if t = "[]" then some (JSONValue.arr []) else none) "[]" =
      some (JSONValue.arr []) ∧
    normalizeDevelopers (fun t => if t = "[]" then some (JSONValue.arr []) else none)
        (.str "[]") =
      normalizeDevelopers (fun t => if t = "[]" then some (JSONValue.arr []) else none)
        (.arr []) :=
  ⟨rfl, c8_string_wrapping_transparent _ "[]" [] rfl⟩

/-- C9: normalizing a list payload emits no error and returns the
successfully built records of its elements in input order — the loop is
the order-preserving filterMap of the per-element step, and splits over
concatenation — and the empty list yields the empty record set, never an
error. -/
theorem c9_order_and_empty (parse : String → Option JSONValue) (xs ys : List JSONValue) :
    normalizeDevelopers parse (.arr xs) =
      { errors := [], records := xs.filterMap (devStep parse) } ∧
    (normalizeDevelopers parse (.arr (xs ++ ys))).records =
      (normalizeDevelopers parse (.arr xs)).records ++
        (normalizeDevelopers parse (.arr ys)).records ∧
    normalizeDevelopers parse (.arr []) = { errors := [], records := [] } := by
  refine ⟨normalizeDevelopers_arr parse xs, ?_, rfl⟩
  simp [normalizeDevelopers_arr, List.filterMap_append]

/-- C10: in the developers normalization, every element that is neither a
string nor a mapping produces one record whose every schema field is the
sentinel "N/A" — one record per element, none dropped. -/
theorem c10_non_mapping_all_sentinel (parse : String → Option JSONValue)
    (xs : List JSONValue) (h : ∀ x ∈ xs, x.isStr = false ∧ x.isObj = false) :
    (normalizeDevelopers parse (.arr xs)).records = xs.map fun _ => naDevRecord := by
  rw [normalizeDevelopers_arr]
  exact filterMap_devStep_all_na parse xs h

/-- C10 witness: a number, a boolean, a null and a list each yield one
all-sentinel record. -/
theorem c10_witness :
    (∀ x ∈ [JSONValue.num 3, JSONValue.bool true, JSONValue.null, JSONValue.arr []],
        x.isStr = false ∧ x.isObj = false) ∧
    (normalizeDevelopers (fun _ => none)
        (.arr [.num 3, .bool true, .null, .arr []])).records =
      [JSONValue.num 3, JSONValue.bool true, JSONValue.null, JSONValue.arr []].map
        (fun _ => naDevRecord) :=
  ⟨by simp [JSONValue.isStr, JSONValue.isObj],
    c10_non_mapping_all_sentinel (fun _ => none) _
      (by simp [JSONValue.isStr, JSONValue.isObj])⟩
